import Mathlib

/-!
A shallow embedding of `src/app.py` (Smart-Sign): free text is turned into an
ISL gloss list by a generative-language model, each gloss is looked up as a
video in a remote drive folder tree, a placeholder image is generated on a
miss, and the clips are concatenated into one output video returned over HTTP.

External services (the language model, the drive API, temp-file naming) are
modelled as an oracle environment `Env`; Python exceptions are modelled with
`Except String`; character classification uses ASCII semantics.
-/

/-- RGB colour triple, as used for PIL colours such as (0, 0, 0). -/
structure RGB where
  r : Nat
  g : Nat
  b : Nat
deriving DecidableEq

/-- Model of the PIL image built by `create_placeholder_image`: a
width-by-height canvas filled with a background colour, on which one text is
drawn at (posX, posY) with the given fill colour and anchor. -/
structure PlaceholderImage where
  width : Nat
  height : Nat
  background : RGB
  textFill : RGB
  text : String
  posX : Nat
  posY : Nat
  anchor : String
deriving DecidableEq

/-- One file entry returned by the Drive files().list call (name is the key of
the files_map dictionary, so it is kept outside this structure). -/
structure DriveFile where
  link : String
  id : String
deriving DecidableEq

/-- The dictionary returned by `search_video_smart` on a hit: the file data
with a 'type' field set to 'video'. -/
structure DriveResult where
  link : String
  id : String
  type : String
deriving DecidableEq

/-- An element of the `sequence` list built in `process_sign`. -/
inductive SeqItem
  | video (id : String) (word : String)
  | image (path : String) (word : String)
deriving DecidableEq

/-- A moviepy clip as configured by `process_sign`: a `VideoFileClip` resized
to w-by-h, or an `ImageClip` with a duration, resized to w-by-h. -/
inductive Clip
  | video (path : String) (w h : Nat)
  | image (path : String) (duration : Nat) (w h : Nat)
deriving DecidableEq

/-- The video written by `write_videofile`: the concatenated clip list in
order, the frame rate and the codecs passed to the call. -/
structure RenderedVideo where
  clips : List Clip
  fps : Nat
  codec : String
  audioCodec : String
deriving DecidableEq

/-- Content of a temporary file created while serving a request. -/
inductive FileKind
  | png (img : PlaceholderImage)
  | mp4dl (fileId : String)
  | rendered (v : RenderedVideo)
deriving DecidableEq

/-- A temporary file on disk: its path and its content. -/
structure TempFile where
  path : String
  kind : FileKind
deriving DecidableEq

/-- Body of a Flask response: a jsonify error object or a file sent back. -/
inductive Body
  | errorJson (msg : String)
  | videoFile (path : String) (mimetype : String)
deriving DecidableEq

/-- An HTTP response: status code and body. -/
structure HttpResponse where
  status : Nat
  body : Body
deriving DecidableEq

/-- Oracle for the external world: whether the Drive client is connected, the
generative-language model (prompt text to response text), the Drive folder
search and folder listing, the per-file download outcome, and the names the
tempfile module hands out. -/
structure Env where
  driveConnected : Bool
  llm : String → String
  findFolder : String → Option String → Option String
  listFiles : String → List (String × DriveFile)
  downloadResult : String → Except String Unit
  mkImagePath : String → String
  mkVideoPath : String → String
  mkOutputPath : String

deriving instance DecidableEq for Except

/-- The apostrophe character. -/
def apos : Char := Char.ofNat 39

/-- Python str.strip (ASCII whitespace): drop whitespace from both ends. -/
def py_strip (s : String) : String :=
  ⟨((s.data.dropWhile Char.isWhitespace).reverse.dropWhile Char.isWhitespace).reverse⟩

/-- Python str.replace with a one-character pattern and an empty replacement:
delete every occurrence of the character. -/
def remove_char (c : Char) (s : String) : String :=
  ⟨s.data.filter (fun a => a != c)⟩

/-- Python str.split with a one-character separator, on the character list. -/
def split_chars (sep : Char) : List Char → List (List Char)
  | [] => [[]]
  | c :: rest =>
    if c = sep then [] :: split_chars sep rest
    else
      match split_chars sep rest with
      | [] => [[c]]
      | l :: ls => (c :: l) :: ls

/-- Python str.split with a one-character separator. -/
def split_on_char (sep : Char) (s : String) : List String :=
  (split_chars sep s.data).map (fun l => ⟨l⟩)

/-- src/app.py line 30. -/
def IGNORED_FOLDERS : List String :=
  ["MHSL - 259", "New 2500 ISL Dictionary Videos", "NCERT 156 new"]

/-- The prompt template of `get_isl_glosses` (src/app.py lines 86-90). -/
def gloss_prompt (text : String) : String :=
  "\n    Convert sentence to ISL Glosses (keywords). Output ONLY keywords separated by commas.\n    Remove stopwords. Use Uppercase. Root verbs.\n    Input: \"" ++ text ++ "\"\n    "

/-- `get_isl_glosses` (src/app.py lines 84-92): query the model, strip the
newlines from the response, split on commas, and keep the stripped token of
every comma piece whose stripped form is non-empty. -/
def get_isl_glosses (env : Env) (text : String) : List String :=
  (split_on_char ',' (remove_char '\n' (env.llm (gloss_prompt text)))).filterMap
    (fun w => if py_strip w ≠ "" then some (py_strip w) else none)

/-- The prompt template of `pick_best_file` (src/app.py lines 118-123). -/
def pick_prompt (word files_str : String) : String :=
  "\n    Find best video match for ISL word: \"" ++ word ++ "\" from list below.\n    Prioritize exact matches. Return \"NONE\" if no good match.\n    Return ONLY the filename.\n    ---\n" ++ files_str ++ "\n---\n    "

/-- `pick_best_file` (src/app.py lines 114-125): None on an empty list;
otherwise ask the model over the first 300 names, strip the reply and delete
quote characters, and return it only when it occurs in the full name list. -/
def pick_best_file (env : Env) (word : String) (filenames : List String) : Option String :=
  if filenames.isEmpty then none
  else
    let files_str := String.intercalate "\n" (filenames.take 300)
    let resp := remove_char '"' (remove_char apos (py_strip (env.llm (pick_prompt word files_str))))
    if resp ∈ filenames then some resp else none

/-- `create_placeholder_image` (src/app.py lines 127-140): a 1280x720 black
image with the text drawn in white, centre-anchored at (width/2, height/2),
saved to a fresh temp .png whose path is returned. -/
def create_placeholder_image (env : Env) (text : String) : PlaceholderImage × String :=
  (⟨1280, 720, ⟨0, 0, 0⟩, ⟨255, 255, 255⟩, text, 640, 360, "mm"⟩, env.mkImagePath text)

/-- The subfolder name `search_video_smart` computes from the first character
of the word (src/app.py lines 144-145): the uppercased character itself when
it is a letter, "Numbers" when it is a digit, "A" otherwise. -/
def subfolder_for (c : Char) : String :=
  let first := c.toUpper
  if first.isAlpha then String.singleton first
  else if first.isDigit then "Numbers" else "A"

/-- `search_video_smart` (src/app.py lines 142-160). Indexing word[0] on an
empty word raises IndexError, modelled as an error value. -/
def search_video_smart (env : Env) (word : String) (rootId : String) :
    Except String (Option DriveResult) :=
  if env.driveConnected = false ∨ rootId = "" then .ok none
  else
    match word.data with
    | [] => .error "string index out of range"
    | c :: _ =>
      let sub := subfolder_for c
      if sub ∈ IGNORED_FOLDERS then .ok none
      else
        match env.findFolder sub (some rootId) with
        | none => .ok none
        | some sid =>
          let fmap := env.listFiles sid
          if fmap.isEmpty then .ok none
          else
            match pick_best_file env word (fmap.map Prod.fst) with
            | some best =>
              if best ≠ "" then
                match fmap.lookup best with
                | some d => .ok (some ⟨d.link, d.id, "video"⟩)
                | none => .error "KeyError"
              else .ok none
            | none => .ok none

/-- `search_video_smart` with the IGNORED_FOLDERS test removed, used to show
that the test is unreachable. -/
def search_video_smart_no_ignore (env : Env) (word : String) (rootId : String) :
    Except String (Option DriveResult) :=
  if env.driveConnected = false ∨ rootId = "" then .ok none
  else
    match word.data with
    | [] => .error "string index out of range"
    | c :: _ =>
      let sub := subfolder_for c
      match env.findFolder sub (some rootId) with
      | none => .ok none
      | some sid =>
        let fmap := env.listFiles sid
        if fmap.isEmpty then .ok none
        else
          match pick_best_file env word (fmap.map Prod.fst) with
          | some best =>
            if best ≠ "" then
              match fmap.lookup best with
              | some d => .ok (some ⟨d.link, d.id, "video"⟩)
              | none => .error "KeyError"
            else .ok none
          | none => .ok none

/-- `download_drive_video` (src/app.py lines 162-175): on success the video
lands in a fresh temp .mp4 whose path is returned; a failure is re-raised. -/
def download_drive_video (env : Env) (fileId : String) : Except String String :=
  match env.downloadResult fileId with
  | .ok _ => .ok (env.mkVideoPath fileId)
  | .error e => .error e

/-- The first loop of `process_sign` (src/app.py lines 197-204): one sequence
entry per gloss (a video entry on a hit, a placeholder image entry on a miss),
together with the temp files created and the cleanup_files entries appended.
An exception aborts the loop but the files already created remain. -/
def build_sequence (env : Env) (rootId : String) :
    List String → Except String (List SeqItem) × List TempFile × List String
  | [] => (.ok [], [], [])
  | word :: rest =>
    match search_video_smart env word rootId with
    | .error e => (.error e, [], [])
    | .ok (some r) =>
      let (res, files, cleanup) := build_sequence env rootId rest
      (res.map (fun seq => SeqItem.video r.id word :: seq), files, cleanup)
    | .ok none =>
      let (img, path) := create_placeholder_image env word
      let (res, files, cleanup) := build_sequence env rootId rest
      (res.map (fun seq => SeqItem.image path word :: seq),
        ⟨path, .png img⟩ :: files, path :: cleanup)

/-- One iteration of the second loop of `process_sign` (src/app.py lines
207-215): a video item is downloaded, registered for cleanup and wrapped in a
VideoFileClip resized to 1280x720; an image item becomes an ImageClip with
duration 2 resized to 1280x720. -/
def clip_for (env : Env) (item : SeqItem) :
    Except String (Clip × List TempFile × List String) :=
  match item with
  | .video id _ =>
    match download_drive_video env id with
    | .error e => .error e
    | .ok path => .ok (.video path 1280 720, [⟨path, .mp4dl id⟩], [path])
  | .image path _ => .ok (.image path 2 1280 720, [], [])

/-- The second loop of `process_sign`: one clip per sequence item, together
with the temp files created and the cleanup_files entries appended. -/
def build_clips (env : Env) :
    List SeqItem → Except String (List Clip) × List TempFile × List String
  | [] => (.ok [], [], [])
  | item :: rest =>
    match clip_for env item with
    | .error e => (.error e, [], [])
    | .ok (c, f1, cl1) =>
      let (res, files, cleanup) := build_clips env rest
      (res.map (fun cs => c :: cs), f1 ++ files, cl1 ++ cleanup)

/-- The observable outcome of one `/process_sign` request: the HTTP response,
the sequence and clips lists, the temp files created on disk, the
cleanup_files list the code accumulates, and the files it deletes before
returning (the finally block is `pass`, so none are deleted). -/
structure ProcessResult where
  response : HttpResponse
  sequence : List SeqItem
  clips : List Clip
  createdFiles : List TempFile
  cleanupList : List String
  deletedFiles : List String
deriving DecidableEq

/-- `process_sign` (src/app.py lines 181-234): guard clauses for a missing
Drive client or root folder id, gloss generation, the two loops, the empty
clips check, concatenation and rendering at fps 24, and the blanket exception
handler mapping any raised exception text to HTTP 500. -/
def process_sign (env : Env) (rootId : String) (text : String) : ProcessResult :=
  if env.driveConnected = false then
    ⟨⟨500, .errorJson "Server Error: Google Drive not connected."⟩, [], [], [], [], []⟩
  else if rootId = "" then
    ⟨⟨500, .errorJson ("Server Error: " ++ String.singleton apos ++ "ROOT_FOLDER_ID" ++ String.singleton apos ++ " not set in Env Vars.")⟩,
      [], [], [], [], []⟩
  else
    let glosses := get_isl_glosses env text
    match build_sequence env rootId glosses with
    | (.error e, files, cleanup) => ⟨⟨500, .errorJson e⟩, [], [], files, cleanup, []⟩
    | (.ok sequence, files1, cleanup1) =>
      match build_clips env sequence with
      | (.error e, files2, cleanup2) =>
        ⟨⟨500, .errorJson e⟩, sequence, [], files1 ++ files2, cleanup1 ++ cleanup2, []⟩
      | (.ok clips, files2, cleanup2) =>
        if clips.isEmpty then
          ⟨⟨400, .errorJson "No content found"⟩, sequence, clips,
            files1 ++ files2, cleanup1 ++ cleanup2, []⟩
        else
          ⟨⟨200, .videoFile env.mkOutputPath "video/mp4"⟩, sequence, clips,
            files1 ++ files2 ++ [⟨env.mkOutputPath, .rendered ⟨clips, 24, "libx264", "aac"⟩⟩],
            cleanup1 ++ cleanup2 ++ [env.mkOutputPath], []⟩

/-- The sequence entry `process_sign` builds for one gloss. -/
def item_for (env : Env) (rootId : String) (word : String) : SeqItem :=
  match search_video_smart env word rootId with
  | .ok (some r) => .video r.id word
  | _ => .image (env.mkImagePath word) word

/-- The placeholder temp file `process_sign` creates for one gloss (none on a
lookup hit). -/
def miss_file (env : Env) (rootId : String) (word : String) : Option TempFile :=
  match search_video_smart env word rootId with
  | .ok (some _) => none
  | _ => some ⟨env.mkImagePath word, .png (create_placeholder_image env word).1⟩

/-- The cleanup_files entry the first loop appends for one gloss. -/
def miss_path (env : Env) (rootId : String) (word : String) : Option String :=
  match search_video_smart env word rootId with
  | .ok (some _) => none
  | _ => some (env.mkImagePath word)

/-- The clip the second loop builds for one sequence item, assuming the
download (if any) succeeds. -/
def pure_clip_for (env : Env) : SeqItem → Clip
  | .video id _ => .video (env.mkVideoPath id) 1280 720
  | .image path _ => .image path 2 1280 720

/-- The downloaded temp file for one sequence item (none for an image). -/
def dl_file (env : Env) : SeqItem → Option TempFile
  | .video id _ => some ⟨env.mkVideoPath id, .mp4dl id⟩
  | .image _ _ => none

/-- The cleanup_files entry the second loop appends for one sequence item. -/
def dl_path (env : Env) : SeqItem → Option String
  | .video id _ => some (env.mkVideoPath id)
  | .image _ _ => none

/-- The frame size of a clip. -/
def clip_size : Clip → Nat × Nat
  | .video _ w h => (w, h)
  | .image _ _ w h => (w, h)

/-- A string contains no lowercase letter. -/
def is_upper_string (s : String) : Bool :=
  s.data.all (fun c => !c.isLower)

/-- The spec's reading of gloss extraction: the comma-separated tokens of the
response text with newlines removed, each token stripped of surrounding
whitespace, empty tokens omitted. -/
def get_isl_glosses_spec (env : Env) (text : String) : List String :=
  (((split_on_char ',' (remove_char '\n' (env.llm (gloss_prompt text)))).map py_strip).filter
    (fun w => w != ""))

/-- A concrete environment in which every folder lookup misses, so every gloss
falls back to a placeholder; the model answers "HELLO" to every prompt. -/
def envMiss : Env where
  driveConnected := true
  llm := fun _ => "HELLO"
  findFolder := fun _ _ => none
  listFiles := fun _ => []
  downloadResult := fun _ => .ok ()
  mkImagePath := fun w => "ph_" ++ w ++ ".png"
  mkVideoPath := fun i => "dl_" ++ i ++ ".mp4"
  mkOutputPath := "out.mp4"

/-- A concrete environment in which the lookup hits: the model answers "HELLO"
to every prompt and the letter folder holds a file named "HELLO". -/
def envHit : Env where
  driveConnected := true
  llm := fun _ => "HELLO"
  findFolder := fun _ _ => some "sid"
  listFiles := fun _ => [("HELLO", ⟨"lnk", "id1"⟩)]
  downloadResult := fun _ => .ok ()
  mkImagePath := fun w => "ph_" ++ w ++ ".png"
  mkVideoPath := fun i => "dl_" ++ i ++ ".mp4"
  mkOutputPath := "out.mp4"

/-- A concrete environment in which the model replies "NONE" to every prompt
and the folder holds a file literally named "NONE". -/
def envNone : Env :=
  { envHit with llm := fun _ => "NONE", listFiles := fun _ => [("NONE", ⟨"l", "i"⟩)] }

/-- A concrete environment in which the model answers in lowercase. -/
def envLow : Env := { envMiss with llm := fun _ => "hello" }

/-- A concrete environment in which the model answers the empty string, so the
gloss list is empty. -/
def envEmpty : Env := { envMiss with llm := fun _ => "" }

/-- A concrete environment in which the lookup hits but the download of the
matched file raises. -/
def envDlFail : Env := { envHit with downloadResult := fun _ => .error "Download Error" }

/-- A concrete environment in which the Drive client is not connected. -/
def envOff : Env := { envMiss with driveConnected := false }
/-- Every returned gloss is non-empty. -/
lemma mem_glosses_ne_empty {env : Env} {text g : String}
    (h : g ∈ get_isl_glosses env text) : g ≠ "" := by
  unfold get_isl_glosses at h
  rw [List.mem_filterMap] at h
  obtain ⟨w, -, hw⟩ := h
  by_cases hs : py_strip w ≠ ""
  · rw [if_pos hs] at hw
    cases hw
    exact hs
  · rw [if_neg hs] at hw
    cases hw

/-- A non-empty string has a non-empty character list. -/
lemma data_ne_nil {s : String} (h : s ≠ "") : s.data ≠ [] := by
  intro hd
  apply h
  cases s with
  | mk l =>
    cases hd
    rfl

/-- pick_best_file only returns members of the filename list. -/
lemma pick_best_file_mem {env : Env} {word r : String} {filenames : List String}
    (h : pick_best_file env word filenames = some r) : r ∈ filenames := by
  unfold pick_best_file at h
  split at h
  · cases h
  · dsimp only at h
    split at h
    · cases h
      assumption
    · cases h

/-- A key occurring among the first components of an association list is found
by lookup. -/
lemma lookup_of_mem_fst {l : List (String × DriveFile)} {a : String}
    (h : a ∈ l.map Prod.fst) : ∃ v, l.lookup a = some v := by
  induction l with
  | nil => simp at h
  | cons p rest ih =>
    rw [List.map_cons, List.mem_cons] at h
    by_cases hpa : a = p.1
    · exact ⟨p.2, by simp [List.lookup, hpa]⟩
    · obtain h | h := h
      · exact absurd h hpa
      · obtain ⟨v, hv⟩ := ih h
        have hbeq : (a == p.1) = false := beq_eq_false_iff_ne.mpr hpa
        refine ⟨v, ?_⟩
        simp only [List.lookup, hbeq]
        exact hv

/-- On a non-empty word the lookup never raises: the dictionary access at the
end is covered by the membership test inside pick_best_file. -/
lemma search_isOk (env : Env) (word rootId : String) (hw : word.data ≠ []) :
    ∃ o, search_video_smart env word rootId = .ok o := by
  unfold search_video_smart
  split
  · exact ⟨none, rfl⟩
  · cases hdata : word.data with
    | nil => exact absurd hdata hw
    | cons c cs =>
      dsimp only
      split
      · exact ⟨none, rfl⟩
      · cases hff : env.findFolder (subfolder_for c) (some rootId) with
        | none => exact ⟨none, rfl⟩
        | some sid =>
          dsimp only
          split
          · exact ⟨none, rfl⟩
          · cases hp : pick_best_file env word ((env.listFiles sid).map Prod.fst) with
            | none => exact ⟨none, rfl⟩
            | some best =>
              dsimp only
              split
              · obtain ⟨v, hv⟩ := lookup_of_mem_fst (pick_best_file_mem hp)
                rw [hv]
                exact ⟨some ⟨v.link, v.id, "video"⟩, rfl⟩
              · exact ⟨none, rfl⟩
/-- When no lookup raises, the first loop produces exactly one sequence entry
per gloss, one placeholder file per miss, and one cleanup entry per miss. -/
lemma build_sequence_eq (env : Env) (rootId : String) (glosses : List String)
    (h : ∀ w ∈ glosses, ∃ o, search_video_smart env w rootId = .ok o) :
    build_sequence env rootId glosses =
      (.ok (glosses.map (item_for env rootId)),
       glosses.filterMap (miss_file env rootId),
       glosses.filterMap (miss_path env rootId)) := by
  induction glosses with
  | nil => rfl
  | cons w rest ih =>
    obtain ⟨o, ho⟩ := h w (List.mem_cons_self w rest)
    have hrest := ih (fun x hx => h x (List.mem_cons_of_mem w hx))
    cases o with
    | some r =>
      simp only [build_sequence, ho, hrest, List.map_cons, List.filterMap_cons,
        item_for, miss_file, miss_path, Except.map]
    | none =>
      simp only [build_sequence, ho, hrest, List.map_cons, List.filterMap_cons,
        item_for, miss_file, miss_path, create_placeholder_image, Except.map]

/-- When every needed download succeeds, the second loop produces exactly one
clip per sequence item, one downloaded file per video item, and one cleanup
entry per video item. -/
lemma build_clips_eq (env : Env) (items : List SeqItem)
    (h : ∀ i w, SeqItem.video i w ∈ items → env.downloadResult i = .ok ()) :
    build_clips env items =
      (.ok (items.map (pure_clip_for env)),
       items.filterMap (dl_file env),
       items.filterMap (dl_path env)) := by
  induction items with
  | nil => rfl
  | cons item rest ih =>
    have hrest := ih (fun i w hm => h i w (List.mem_cons_of_mem item hm))
    cases item with
    | video i w =>
      have hdl := h i w (List.mem_cons_self _ rest)
      simp only [build_clips, clip_for, download_drive_video, hdl, hrest,
        List.map_cons, List.filterMap_cons, pure_clip_for, dl_file, dl_path, Except.map, List.singleton_append, List.nil_append]
    | image p w =>
      simp only [build_clips, clip_for, hrest, List.map_cons, List.filterMap_cons,
        pure_clip_for, dl_file, dl_path, Except.map, List.singleton_append, List.nil_append]
/-- With the Drive client connected, a root folder id set and every download
succeeding, one request runs the whole pipeline: an empty gloss list yields the
400 response, a non-empty one yields the rendered 200 video; files created and
cleanup entries are exactly the placeholder misses, the downloads and (on
success) the output file, and nothing is ever deleted. -/
lemma process_sign_success (env : Env) (rootId text : String)
    (hc : env.driveConnected = true) (hr : rootId ≠ "")
    (hd : ∀ i, env.downloadResult i = .ok ()) :
    process_sign env rootId text =
      (let glosses := get_isl_glosses env text
       let seq := glosses.map (item_for env rootId)
       let clips := seq.map (pure_clip_for env)
       let files := glosses.filterMap (miss_file env rootId) ++ seq.filterMap (dl_file env)
       let cleanup := glosses.filterMap (miss_path env rootId) ++ seq.filterMap (dl_path env)
       if glosses.isEmpty then
         ⟨⟨400, .errorJson "No content found"⟩, seq, clips, files, cleanup, []⟩
       else
         ⟨⟨200, .videoFile env.mkOutputPath "video/mp4"⟩, seq, clips,
           files ++ [⟨env.mkOutputPath, .rendered ⟨clips, 24, "libx264", "aac"⟩⟩],
           cleanup ++ [env.mkOutputPath], []⟩) := by
  have hsearch : ∀ w ∈ get_isl_glosses env text,
      ∃ o, search_video_smart env w rootId = .ok o := by
    intro w hw
    exact search_isOk env w rootId (data_ne_nil (mem_glosses_ne_empty hw))
  have hbs := build_sequence_eq env rootId (get_isl_glosses env text) hsearch
  have hbc := build_clips_eq env ((get_isl_glosses env text).map (item_for env rootId))
    (fun i w _ => hd i)
  unfold process_sign
  rw [if_neg (by simp [hc]), if_neg hr]
  dsimp only
  rw [hbs]
  dsimp only
  rw [hbc]
  dsimp only
  by_cases hnil : get_isl_glosses env text = []
  · rw [hnil]
    rfl
  · have h1 : (get_isl_glosses env text).isEmpty = false := by
      simpa [List.isEmpty_iff] using hnil
    have h2 : (((get_isl_glosses env text).map (item_for env rootId)).map
        (pure_clip_for env)).isEmpty = false := by
      simp [List.isEmpty_iff, hnil]
    rw [if_neg (by simp [h2, hnil]), if_neg (by simp [h1, hnil])]

/-- The computed subfolder name is a single character, "Numbers" or "A", and
none of these occurs in IGNORED_FOLDERS. -/
lemma subfolder_for_not_ignored (c : Char) : subfolder_for c ∉ IGNORED_FOLDERS := by
  unfold subfolder_for
  dsimp only
  split
  · intro h
    have hl : (String.singleton c.toUpper).length = 1 := rfl
    simp only [IGNORED_FOLDERS, List.mem_cons, List.not_mem_nil, or_false] at h
    rcases h with h | h | h <;>
      { have hlen := congrArg String.length h
        rw [hl] at hlen
        exact absurd hlen (by decide) }
  · split
    · decide
    · decide

/-- Removing the IGNORED_FOLDERS test does not change search_video_smart. -/
lemma search_eq_no_ignore (env : Env) (word rootId : String) :
    search_video_smart env word rootId = search_video_smart_no_ignore env word rootId := by
  unfold search_video_smart search_video_smart_no_ignore
  split
  · rfl
  · cases hdata : word.data with
    | nil => rfl
    | cons c cs =>
      dsimp only
      rw [if_neg (subfolder_for_not_ignored c)]

/-- Keeping the non-empty stripped form of each token is the same as stripping
every token and then dropping the empty ones. -/
lemma filterMap_strip_eq (l : List String) :
    l.filterMap (fun w => if py_strip w ≠ "" then some (py_strip w) else none) =
      (l.map py_strip).filter (fun w => w != "") := by
  induction l with
  | nil => rfl
  | cons w rest ih =>
    simp only [ne_eq, ite_not] at ih ⊢
    by_cases h : py_strip w = "" <;> simp [h, ih]

/-- Every clip built by the second loop has frame size 1280x720. -/
lemma clip_size_pure (env : Env) (item : SeqItem) :
    clip_size (pure_clip_for env item) = (1280, 720) := by
  cases item <;> rfl
/-- C3: for any model response, get_isl_glosses returns the comma-separated
tokens of the response with newlines removed and surrounding whitespace
stripped from each token, omitting empty tokens; every returned gloss is
non-empty. -/
theorem c3_gloss_tokens (env : Env) (text : String) :
    get_isl_glosses env text = get_isl_glosses_spec env text ∧
    ∀ g ∈ get_isl_glosses env text, g ≠ "" := by
  constructor
  · unfold get_isl_glosses get_isl_glosses_spec
    exact filterMap_strip_eq _
  · intro g hg
    exact mem_glosses_ne_empty hg

/-- Witness for C3 at a concrete environment. -/
theorem c3_gloss_tokens_witness :
    get_isl_glosses envMiss "hi" = get_isl_glosses_spec envMiss "hi" ∧
    "HELLO" ∈ get_isl_glosses envMiss "hi" ∧ "HELLO" ≠ "" :=
  ⟨(c3_gloss_tokens envMiss "hi").1, by decide,
    (c3_gloss_tokens envMiss "hi").2 "HELLO" (by decide)⟩

/-- C6 (amended): the code applies no case transformation, so the glosses are
uppercase exactly when the stripped comma-tokens of the model response are:
if every token of the response is uppercase then so is every gloss. -/
theorem c6_uppercase_if_response_uppercase (env : Env) (text : String)
    (h : ∀ w ∈ split_on_char ',' (remove_char '\n' (env.llm (gloss_prompt text))),
          is_upper_string (py_strip w) = true) :
    ∀ g ∈ get_isl_glosses env text, is_upper_string g = true := by
  intro g hg
  unfold get_isl_glosses at hg
  rw [List.mem_filterMap] at hg
  obtain ⟨w, hw, hfw⟩ := hg
  by_cases hs : py_strip w ≠ ""
  · rw [if_pos hs] at hfw
    cases hfw
    exact h w hw
  · rw [if_neg hs] at hfw
    cases hfw

/-- Witness for C6 (amended) at a concrete environment. -/
theorem c6_uppercase_witness : is_upper_string "HELLO" = true :=
  c6_uppercase_if_response_uppercase envMiss "hi" (by decide) "HELLO" (by decide)

/-- C6 counterexample: with a lowercase model response the returned gloss list
contains a string that is not uppercase, so the claim as stated fails. -/
theorem c6_counterexample :
    "hello" ∈ get_isl_glosses envLow "x" ∧ is_upper_string "hello" = false := by
  decide

/-- C7: evaluating the handler at a concrete request shows that temp files are
created and registered in cleanup_files, the request completes with a 200
video response, and nothing is deleted (the finally block is a bare pass), so
the placeholder and output files outlive the request. -/
theorem c7_files_left_behind :
    (process_sign envMiss "root" "hello").response.status = 200 ∧
    (process_sign envMiss "root" "hello").cleanupList = ["ph_HELLO.png", "out.mp4"] ∧
    (process_sign envMiss "root" "hello").createdFiles ≠ [] ∧
    (process_sign envMiss "root" "hello").deletedFiles = [] := by
  decide

/-- C8 (amended): pick_best_file returns None or a member of its filename
list (None on an empty list; a reply not occurring in the list, including
"NONE" when no file bears that name, yields None), so the dictionary access in
search_video_smart never raises a KeyError. -/
theorem c8_pick_best_file_safe (env : Env) :
    (∀ word filenames r, pick_best_file env word filenames = some r → r ∈ filenames) ∧
    (∀ word, pick_best_file env word [] = none) ∧
    (∀ word rootId, search_video_smart env word rootId ≠ .error "KeyError") := by
  refine ⟨fun word filenames r h => pick_best_file_mem h, fun word => rfl, ?_⟩
  intro word rootId h
  by_cases hw : word.data = []
  · unfold search_video_smart at h
    split at h
    · cases h
    · rw [hw] at h
      dsimp only at h
      exact absurd h (by decide)
  · obtain ⟨o, ho⟩ := search_isOk env word rootId hw
    rw [ho] at h
    cases h

/-- Witness for C8 (amended) at a concrete environment. -/
theorem c8_pick_best_file_safe_witness :
    pick_best_file envHit "HELLO" ["HELLO"] = some "HELLO" ∧ "HELLO" ∈ ["HELLO"] :=
  ⟨by decide, (c8_pick_best_file_safe envHit).1 "HELLO" ["HELLO"] "HELLO" (by decide)⟩

/-- C8 counterexample: when the folder holds a file literally named "NONE" and
the model replies "NONE", pick_best_file returns that filename rather than
None, so the claim as stated fails. -/
theorem c8_counterexample :
    pick_best_file envNone "X" ["NONE"] = some "NONE" ∧
    pick_best_file envNone "X" ["NONE"] ≠ none := by
  decide

/-- C9: the IGNORED_FOLDERS test in search_video_smart is unreachable: no
computable subfolder name occurs in IGNORED_FOLDERS, and deleting the test
leaves search_video_smart unchanged on all inputs. -/
theorem c9_ignored_check_unreachable :
    (∀ c : Char, subfolder_for c ∉ IGNORED_FOLDERS) ∧
    (∀ env word rootId,
      search_video_smart env word rootId = search_video_smart_no_ignore env word rootId) :=
  ⟨subfolder_for_not_ignored, search_eq_no_ignore⟩

/-- Witness for C9 at a concrete input. -/
theorem c9_ignored_check_unreachable_witness :
    search_video_smart envHit "HELLO" "root" = search_video_smart_no_ignore envHit "HELLO" "root" :=
  c9_ignored_check_unreachable.2 envHit "HELLO" "root"
/-- C10: with the Drive client connected, the root folder id set and downloads
succeeding, an empty gloss list yields no clips and the 400 error "No content
found", while a non-empty gloss list yields exactly one clip per gloss and a
video response. -/
theorem c10_empty_gloss_response (env : Env) (rootId text : String)
    (hc : env.driveConnected = true) (hr : rootId ≠ "")
    (hd : ∀ i, env.downloadResult i = .ok ()) :
    (get_isl_glosses env text = [] →
      (process_sign env rootId text).response = ⟨400, .errorJson "No content found"⟩ ∧
      (process_sign env rootId text).clips = []) ∧
    (get_isl_glosses env text ≠ [] →
      (process_sign env rootId text).clips.length = (get_isl_glosses env text).length ∧
      (process_sign env rootId text).response =
        ⟨200, .videoFile env.mkOutputPath "video/mp4"⟩) := by
  have hps := process_sign_success env rootId text hc hr hd
  rw [hps]
  dsimp only
  constructor
  · intro h
    rw [h]
    exact ⟨rfl, rfl⟩
  · intro h
    rw [if_neg (by simp [h])]
    dsimp only
    exact ⟨by simp, rfl⟩

/-- Witness for C10 at concrete environments: an empty gloss list gives 400,
a singleton gloss list gives one clip and a 200 video. -/
theorem c10_empty_gloss_response_witness :
    get_isl_glosses envEmpty "hi" = [] ∧
    (process_sign envEmpty "root" "hi").response = ⟨400, .errorJson "No content found"⟩ ∧
    get_isl_glosses envMiss "hi" ≠ [] ∧
    (process_sign envMiss "root" "hi").clips.length = (get_isl_glosses envMiss "hi").length :=
  ⟨by decide,
    ((c10_empty_gloss_response envEmpty "root" "hi" (by decide) (by decide)
      (fun _ => rfl)).1 (by decide)).1,
    by decide,
    ((c10_empty_gloss_response envMiss "root" "hi" (by decide) (by decide)
      (fun _ => rfl)).2 (by decide)).1⟩

/-- C2: under the same conditions, a non-empty gloss list produces a 200
response whose rendered file concatenates, in gloss order, exactly one clip
per gloss; every clip has frame size 1280x720 and the file is written at
frame rate 24. -/
theorem c2_concatenation_resolution_fps (env : Env) (rootId text : String)
    (hc : env.driveConnected = true) (hr : rootId ≠ "")
    (hd : ∀ i, env.downloadResult i = .ok ())
    (hne : get_isl_glosses env text ≠ []) :
    (process_sign env rootId text).response =
      ⟨200, .videoFile env.mkOutputPath "video/mp4"⟩ ∧
    (process_sign env rootId text).clips =
      ((get_isl_glosses env text).map (item_for env rootId)).map (pure_clip_for env) ∧
    (process_sign env rootId text).clips.length = (get_isl_glosses env text).length ∧
    (∀ c ∈ (process_sign env rootId text).clips, clip_size c = (1280, 720)) ∧
    (⟨env.mkOutputPath,
        .rendered ⟨(process_sign env rootId text).clips, 24, "libx264", "aac"⟩⟩ : TempFile) ∈
      (process_sign env rootId text).createdFiles := by
  have hps := process_sign_success env rootId text hc hr hd
  rw [hps]
  dsimp only
  rw [if_neg (by simp [hne])]
  dsimp only
  refine ⟨rfl, rfl, by simp, ?_, ?_⟩
  · intro c hcmem
    rw [List.mem_map] at hcmem
    obtain ⟨item, -, rfl⟩ := hcmem
    exact clip_size_pure env item
  · exact List.mem_append_right _ (List.mem_singleton.mpr rfl)

/-- Witness for C2 at a concrete environment with one downloaded video clip. -/
theorem c2_concatenation_witness :
    get_isl_glosses envHit "hi" ≠ [] ∧
    (process_sign envHit "root" "hi").response = ⟨200, .videoFile "out.mp4" "video/mp4"⟩ ∧
    (process_sign envHit "root" "hi").clips =
      ((get_isl_glosses envHit "hi").map (item_for envHit "root")).map (pure_clip_for envHit) :=
  ⟨by decide,
    (c2_concatenation_resolution_fps envHit "root" "hi" (by decide) (by decide)
      (fun _ => rfl) (by decide)).1,
    (c2_concatenation_resolution_fps envHit "root" "hi" (by decide) (by decide)
      (fun _ => rfl) (by decide)).2.1⟩

/-- C1: for a gloss at position i on which the lookup finds no video, the
sequence entry is the placeholder image entry, the created file at its path is
a generated 1280x720 image with black background and the gloss text in white
at the centre, and the clip holds that image for the fixed duration 2 resized
to 1280x720. -/
theorem c1_placeholder_fallback (env : Env) (rootId text : String) (i : Nat) (word : String)
    (hc : env.driveConnected = true) (hr : rootId ≠ "")
    (hd : ∀ j, env.downloadResult j = .ok ())
    (hg : (get_isl_glosses env text).get? i = some word)
    (hm : search_video_smart env word rootId = .ok none) :
    (process_sign env rootId text).sequence.get? i =
      some (.image (env.mkImagePath word) word) ∧
    (process_sign env rootId text).clips.get? i =
      some (.image (env.mkImagePath word) 2 1280 720) ∧
    (⟨env.mkImagePath word,
        .png ⟨1280, 720, ⟨0, 0, 0⟩, ⟨255, 255, 255⟩, word, 640, 360, "mm"⟩⟩ : TempFile) ∈
      (process_sign env rootId text).createdFiles := by
  have hps := process_sign_success env rootId text hc hr hd
  have hnil : get_isl_glosses env text ≠ [] := by
    intro h
    rw [h] at hg
    cases hg
  have hword : word ∈ get_isl_glosses env text := List.get?_mem hg
  rw [hps]
  dsimp only
  rw [if_neg (by simp [hnil])]
  dsimp only
  refine ⟨?_, ?_, ?_⟩
  · rw [List.get?_map, hg]
    simp [item_for, hm]
  · rw [List.get?_map, List.get?_map, hg]
    simp [item_for, hm, pure_clip_for]
  · refine List.mem_append_left _ (List.mem_append_left _ ?_)
    rw [List.mem_filterMap]
    exact ⟨word, hword, by simp [miss_file, hm, create_placeholder_image]⟩

/-- Witness for C1 at a concrete environment where the only gloss misses. -/
theorem c1_placeholder_fallback_witness :
    (get_isl_glosses envMiss "hi").get? 0 = some "HELLO" ∧
    search_video_smart envMiss "HELLO" "root" = .ok none ∧
    (process_sign envMiss "root" "hi").clips.get? 0 =
      some (.image "ph_HELLO.png" 2 1280 720) :=
  ⟨by decide, by decide,
    (c1_placeholder_fallback envMiss "root" "hi" 0 "HELLO" (by decide) (by decide)
      (fun _ => rfl) (by decide) (by decide)).2.1⟩
/-- C4 (amended): any exception raised while building the clips (a failed
download) is caught by the blanket handler and answered with HTTP 500 carrying
the exception text; the two configuration guard clauses return HTTP 500 with
their fixed messages; an empty clip list returns the fixed 400 "No content
found"; every non-200 response is an error object, and no retry or other
recovery exists. -/
theorem c4_failure_policy (env : Env) (rootId text : String) :
    ((process_sign env rootId text).response.status = 200 ∨
     (process_sign env rootId text).response.status = 400 ∨
     (process_sign env rootId text).response.status = 500) ∧
    ((process_sign env rootId text).response.status ≠ 200 →
      ∃ m, (process_sign env rootId text).response.body = .errorJson m) ∧
    ((process_sign env rootId text).response.status = 400 →
      (process_sign env rootId text).response.body = .errorJson "No content found") ∧
    (env.driveConnected = false →
      (process_sign env rootId text).response =
        ⟨500, .errorJson "Server Error: Google Drive not connected."⟩) ∧
    (env.driveConnected = true → rootId = "" →
      (process_sign env rootId text).response =
        ⟨500, .errorJson ("Server Error: " ++ String.singleton apos ++ "ROOT_FOLDER_ID" ++
          String.singleton apos ++ " not set in Env Vars.")⟩) ∧
    (env.driveConnected = true → rootId ≠ "" →
      ∀ sq2 f1 c1 e f2 c2,
        build_sequence env rootId (get_isl_glosses env text) = (.ok sq2, f1, c1) →
        build_clips env sq2 = (.error e, f2, c2) →
        (process_sign env rootId text).response = ⟨500, .errorJson e⟩) := by
  unfold process_sign
  split
  · next hdc =>
    dsimp only
    refine ⟨Or.inr (Or.inr rfl), fun _ => ⟨_, rfl⟩, fun h => absurd h (by decide),
      fun _ => rfl, ?_, ?_⟩
    · intro hcon _
      rw [hdc] at hcon
      cases hcon
    · intro hcon _ sq2 f1 c1 e f2 c2 _ _
      rw [hdc] at hcon
      cases hcon
  · next hdc =>
    split
    · next hroot =>
      dsimp only
      refine ⟨Or.inr (Or.inr rfl), fun _ => ⟨_, rfl⟩, fun h => absurd h (by decide),
        fun h4 => absurd h4 hdc, fun _ _ => rfl, ?_⟩
      intro _ hroot2 sq2 f1 c1 e f2 c2 _ _
      exact absurd hroot hroot2
    · next hroot =>
      dsimp only
      split
      · next e files cleanup heq =>
        dsimp only
        refine ⟨Or.inr (Or.inr rfl), fun _ => ⟨_, rfl⟩, fun h => absurd h (by decide),
          fun h4 => absurd h4 hdc, fun _ hroot2 => absurd hroot2 hroot, ?_⟩
        intro _ _ sq2 f1 c1 e2 f2 c2 hbs _
        rw [heq] at hbs
        simp at hbs
      · next seq files1 cleanup1 heq =>
        split
        · next e files2 cleanup2 heq2 =>
          dsimp only
          refine ⟨Or.inr (Or.inr rfl), fun _ => ⟨_, rfl⟩, fun h => absurd h (by decide),
            fun h4 => absurd h4 hdc, fun _ hroot2 => absurd hroot2 hroot, ?_⟩
          intro _ _ sq2 f1 c1 e2 f2 c2 hbs hbc
          rw [heq] at hbs
          simp only [Prod.mk.injEq, Except.ok.injEq] at hbs
          obtain ⟨h1, -, -⟩ := hbs
          subst h1
          rw [heq2] at hbc
          simp only [Prod.mk.injEq, Except.error.injEq] at hbc
          rw [hbc.1]
        · next clips files2 cleanup2 heq2 =>
          split
          · dsimp only
            refine ⟨Or.inr (Or.inl rfl), fun _ => ⟨_, rfl⟩, fun _ => rfl,
              fun h4 => absurd h4 hdc, fun _ hroot2 => absurd hroot2 hroot, ?_⟩
            intro _ _ sq2 f1 c1 e2 f2 c2 hbs hbc
            rw [heq] at hbs
            simp only [Prod.mk.injEq, Except.ok.injEq] at hbs
            obtain ⟨h1, -, -⟩ := hbs
            subst h1
            rw [heq2] at hbc
            simp at hbc
          · dsimp only
            refine ⟨Or.inl rfl, fun h => absurd rfl h, fun h => absurd h (by decide),
              fun h4 => absurd h4 hdc, fun _ hroot2 => absurd hroot2 hroot, ?_⟩
            intro _ _ sq2 f1 c1 e2 f2 c2 hbs hbc
            rw [heq] at hbs
            simp only [Prod.mk.injEq, Except.ok.injEq] at hbs
            obtain ⟨h1, -, -⟩ := hbs
            subst h1
            rw [heq2] at hbc
            simp at hbc

/-- Witness for C4 (amended): the 400-implication discharged at a concrete
input, the download-failure exception mapped to 500 with the exception text,
and the two configuration guards exercised. -/
theorem c4_failure_policy_witness :
    (process_sign envEmpty "root" "hi").response.body = .errorJson "No content found" ∧
    build_sequence envDlFail "root" (get_isl_glosses envDlFail "hi") =
      (.ok [.video "id1" "HELLO"], [], []) ∧
    build_clips envDlFail [.video "id1" "HELLO"] = (.error "Download Error", [], []) ∧
    (process_sign envDlFail "root" "hi").response = ⟨500, .errorJson "Download Error"⟩ ∧
    (process_sign envOff "root" "hi").response =
      ⟨500, .errorJson "Server Error: Google Drive not connected."⟩ ∧
    (process_sign envMiss "" "hi").response =
      ⟨500, .errorJson ("Server Error: " ++ String.singleton apos ++ "ROOT_FOLDER_ID" ++
        String.singleton apos ++ " not set in Env Vars.")⟩ :=
  ⟨(c4_failure_policy envEmpty "root" "hi").2.2.1 (by decide),
    by decide, by decide,
    (c4_failure_policy envDlFail "root" "hi").2.2.2.2.2 rfl (by decide)
      [.video "id1" "HELLO"] [] [] "Download Error" [] [] (by decide) (by decide),
    (c4_failure_policy envOff "root" "hi").2.2.2.1 rfl,
    (c4_failure_policy envMiss "" "hi").2.2.2.2.1 rfl rfl⟩

/-- C4 counterexample: a request that fails because no content was produced is
answered with status 400, not 500, so the single-policy claim as stated is
false. -/
theorem c4_counterexample :
    (process_sign envEmpty "root" "hi").response.status = 400 ∧
    (process_sign envEmpty "root" "hi").response.body = .errorJson "No content found" ∧
    (process_sign envEmpty "root" "hi").response.status ≠ 500 := by
  decide
/-- C5: the lookup for a keyword consults exactly the subfolder named after
its first character (the uppercased letter, "Numbers" for a digit, "A"
otherwise): a missing subfolder yields no result, a folder whose best-match
query fails yields no result, and a hit is precisely the best-matching
filename of that subfolder's listing. -/
theorem c5_per_letter_lookup (env : Env) (word rootId : String) (c : Char)
    (hc : env.driveConnected = true) (hr : rootId ≠ "")
    (hw : word.data.head? = some c) :
    (env.findFolder (subfolder_for c) (some rootId) = none →
      search_video_smart env word rootId = .ok none) ∧
    (∀ sid, env.findFolder (subfolder_for c) (some rootId) = some sid →
      pick_best_file env word ((env.listFiles sid).map Prod.fst) = none →
      search_video_smart env word rootId = .ok none) ∧
    (∀ r, search_video_smart env word rootId = .ok (some r) →
      ∃ sid best d,
        env.findFolder (subfolder_for c) (some rootId) = some sid ∧
        pick_best_file env word ((env.listFiles sid).map Prod.fst) = some best ∧
        (env.listFiles sid).lookup best = some d ∧
        r = ⟨d.link, d.id, "video"⟩) := by
  cases hdata : word.data with
  | nil =>
    rw [hdata] at hw
    cases hw
  | cons c0 cs =>
    rw [hdata] at hw
    simp only [List.head?_cons, Option.some.injEq] at hw
    subst hw
    unfold search_video_smart
    rw [if_neg (by simp [hc, hr]), hdata]
    dsimp only
    rw [if_neg (subfolder_for_not_ignored c0)]
    refine ⟨?_, ?_, ?_⟩
    · intro hff
      rw [hff]
    · intro sid hff hpick
      rw [hff]
      dsimp only
      by_cases he : (env.listFiles sid).isEmpty
      · rw [if_pos he]
      · rw [if_neg he, hpick]
    · intro r hres
      cases hff : env.findFolder (subfolder_for c0) (some rootId) with
      | none =>
        rw [hff] at hres
        cases hres
      | some sid =>
        rw [hff] at hres
        dsimp only at hres
        by_cases he : (env.listFiles sid).isEmpty
        · rw [if_pos he] at hres
          cases hres
        · rw [if_neg he] at hres
          cases hpick : pick_best_file env word ((env.listFiles sid).map Prod.fst) with
          | none =>
            rw [hpick] at hres
            cases hres
          | some best =>
            rw [hpick] at hres
            dsimp only at hres
            by_cases hb : best ≠ ""
            · rw [if_pos hb] at hres
              cases hv : (env.listFiles sid).lookup best with
              | none =>
                rw [hv] at hres
                cases hres
              | some d =>
                rw [hv] at hres
                simp only [Except.ok.injEq, Option.some.injEq] at hres
                exact ⟨sid, best, d, rfl, hpick, hv, hres.symm⟩
            · rw [if_neg hb] at hres
              cases hres

/-- Witness for C5: a concrete hit showing the file comes from the subfolder
of the first letter. -/
theorem c5_per_letter_lookup_witness :
    search_video_smart envHit "HELLO" "root" = .ok (some ⟨"lnk", "id1", "video"⟩) ∧
    (∃ sid best d,
      envHit.findFolder (subfolder_for 'H') (some "root") = some sid ∧
      pick_best_file envHit "HELLO" ((envHit.listFiles sid).map Prod.fst) = some best ∧
      (envHit.listFiles sid).lookup best = some d ∧
      (⟨"lnk", "id1", "video"⟩ : DriveResult) = ⟨d.link, d.id, "video"⟩) :=
  ⟨by decide,
    (c5_per_letter_lookup envHit "HELLO" "root" 'H' (by decide) (by decide)
      (by decide)).2.2 ⟨"lnk", "id1", "video"⟩ (by decide)⟩
